import Mathlib

/-!
Shallow embedding of `src/fs.rs` of webdav-handler-rs: the structs and traits
that define a "filesystem" backend.

Traits with default methods are embedded as Lean structures whose overridable
methods are fields with default values taken verbatim from the Rust default
bodies.  "A value that does not override method m" is then a structure literal
in which the field `m` is omitted, so that the default applies.  Machine
integers (`u64`, `u32`) are modelled as `Nat`, with an explicit `% 2^64`
where the source performs u64 arithmetic that can wrap (release-mode wrapping
semantics); `SystemTime` is modelled as a
signed count of nanoseconds relative to `UNIX_EPOCH` (`Int`), which is the
observable content `duration_since(UNIX_EPOCH)` extracts from it.
-/

/-- Errors generated by a filesystem implementation (`FsError` in fs.rs). -/
inductive FsError where
  | NotImplemented
  | GeneralFailure
  | Exists
  | NotFound
  | Forbidden
  | InsufficientStorage
  | LoopDetected
  | PathTooLong
  | TooLarge
  | IsRemote
deriving DecidableEq

/-- Model of `std::time::SystemTime`: nanoseconds relative to the Unix epoch
(negative values are instants before the epoch). -/
structure SystemTime where
  nanos : Int
deriving DecidableEq

/-- Model of `std::time::UNIX_EPOCH`. -/
def UNIX_EPOCH : SystemTime := ⟨0⟩

/-- Model of `std::time::Duration`: whole seconds plus the sub-second
nanoseconds (`nanos < 10^9` for values produced by `duration_since`). -/
structure Duration where
  secs : Nat
  nanos : Nat
deriving DecidableEq

/-- `Duration::as_secs`. -/
def Duration.as_secs (d : Duration) : Nat := d.secs

/-- `Duration::subsec_nanos`. -/
def Duration.subsec_nanos (d : Duration) : Nat := d.nanos

/-- Model of `SystemTime::duration_since`: `Ok` exactly when `earlier` is not
later than `self`, returning the difference split into seconds and sub-second
nanoseconds; `Err` otherwise. -/
def SystemTime.duration_since (t earlier : SystemTime) : Except Unit Duration :=
  if earlier.nanos ≤ t.nanos then
    .ok ⟨(t.nanos - earlier.nanos).toNat / 1000000000,
         (t.nanos - earlier.nanos).toNat % 1000000000⟩
  else
    .error ()

/-- The character for one hex digit (value < 16): `0`-`9` then `a`-`f`,
lowercase as produced by Rust's `\x7b:x\x7d` format. -/
def hexDigitChar (n : Nat) : Char :=
  if n < 10 then Char.ofNat (48 + n) else Char.ofNat (87 + n)

/-- Numeric value of a hex digit character (left inverse of `hexDigitChar`). -/
def hexDigitVal (c : Char) : Nat :=
  if 97 ≤ c.toNat then c.toNat - 87 else c.toNat - 48

/-- Big-endian hex digits of `n`, empty for `0`; structural recursion on a
fuel argument so the kernel can evaluate it (the fuel `n` itself always
suffices because the value shrinks by a factor 16 each step). -/
def hexDigitsGo : Nat → Nat → List Char
  | 0, _ => []
  | _ + 1, 0 => []
  | fuel + 1, n + 1 => hexDigitsGo fuel ((n + 1) / 16) ++ [hexDigitChar ((n + 1) % 16)]

/-- Big-endian hex digits of `n` (empty list for `0`). -/
def hexDigits (n : Nat) : List Char := hexDigitsGo n n

/-- The characters of `format!("\x7b:x\x7d", n)`: lowercase hex, `"0"` for zero. -/
def hexChars (n : Nat) : List Char := if n = 0 then ['0'] else hexDigits n

/-- Model of Rust's `format!("\x7b:x\x7d", n)`: `n` in lowercase hexadecimal. -/
def hexStr (n : Nat) : String := String.mk (hexChars n)

/-- Value of a big-endian list of hex digit characters. -/
def hexVal (l : List Char) : Nat := l.foldl (fun a c => 16 * a + hexDigitVal c) 0

instance instDecEqExcept {ε α : Type} [DecidableEq ε] [DecidableEq α] :
    DecidableEq (Except ε α) := fun a b =>
  match a, b with
  | .ok x, .ok y => decidable_of_iff (x = y) (by simp)
  | .ok _, .error _ => isFalse (fun h => Except.noConfusion h)
  | .error _, .ok _ => isFalse (fun h => Except.noConfusion h)
  | .error x, .error y => decidable_of_iff (x = y) (by simp)

/-- The default body of `DavMetaData::etag` (fs.rs lines 251-260): if
`modified()` is `Ok(t)` and `t.duration_since(UNIX_EPOCH)` is `Ok(d)`,
return `format!("\x7b:x\x7d-\x7b:x\x7d", len, d.as_secs() * 1000000 + d.subsec_nanos() / 1000)`;
otherwise fall through to `format!("\x7b:x\x7d", len)`.  The timestamp
expression is computed in `u64`, which wraps modulo `2^64 =
18446744073709551616` (release-mode semantics); the single outer reduction is
equivalent to reducing after each u64 operation, because
`subsec_nanos / 1000 < 2^64`. -/
def dav_etag_default (len : Nat) (modified : Except FsError SystemTime) : String :=
  match modified with
  | .ok t =>
    match t.duration_since UNIX_EPOCH with
    | .ok d => hexStr len ++ "-" ++
        hexStr ((d.as_secs * 1000000 + d.subsec_nanos / 1000) % 18446744073709551616)
    | .error _ => hexStr len
  | .error _ => hexStr len

/-- The `DavMetaData` trait: required methods `len`, `modified`, `is_dir`
become mandatory fields; each default method becomes a field whose default
value is the Rust default body. -/
structure DavMetaData where
  len : Nat
  modified : Except FsError SystemTime
  is_dir : Bool
  etag : String := dav_etag_default len modified
  is_file : Bool := !is_dir
  is_symlink : Bool := false
  accessed : Except FsError SystemTime := .error FsError.NotImplemented
  created : Except FsError SystemTime := .error FsError.NotImplemented
  status_changed : Except FsError SystemTime := .error FsError.NotImplemented
  executable : Except FsError Bool := .error FsError.NotImplemented
deriving DecidableEq

/-- The `DavDirEntry` trait: required `name` (a `Vec<u8>`) and `metadata`;
the defaults of `is_dir`, `is_file`, `is_symlink` are
`Ok(self.metadata()?.is_dir())` etc., i.e. they propagate the error of
`metadata()` and otherwise apply the corresponding metadata method. -/
structure DavDirEntry where
  name : List Nat
  metadata : Except FsError DavMetaData
  is_dir : Except FsError Bool :=
    match metadata with
    | .ok m => .ok m.is_dir
    | .error e => .error e
  is_file : Except FsError Bool :=
    match metadata with
    | .ok m => .ok m.is_file
    | .error e => .error e
  is_symlink : Except FsError Bool :=
    match metadata with
    | .ok m => .ok m.is_symlink
    | .error e => .error e
deriving DecidableEq

/-- The `DavFile` trait: for this development only its `metadata` accessor is
relevant (read/write/seek are I/O streams with no bearing on the claims). -/
structure DavFile where
  metadata : Except FsError DavMetaData
deriving DecidableEq

/-- Model of `webpath::WebPath` (external crate): an opaque, pre-normalized
path value. -/
structure WebPath where
  path : String
deriving DecidableEq

/-- Model of `hyper::status::StatusCode` (external crate): an opaque status
code value. -/
structure StatusCode where
  code : Nat
deriving DecidableEq

/-- A webdav "property" (`DavProp` in fs.rs).  The Rust fields `prefix` and
`namespace` are renamed `pfx` and `ns` because those identifiers are reserved
in Lean; `xml` is `Option<Vec<u8>>`, an optional opaque byte payload. -/
structure DavProp where
  name : String
  pfx : Option String
  ns : Option String
  xml : Option (List Nat)
deriving DecidableEq

/-- `OpenOptions` for `open()`: the six boolean intent flags. -/
structure OpenOptions where
  read : Bool
  write : Bool
  append : Bool
  truncate : Bool
  create : Bool
  create_new : Bool
deriving DecidableEq

/-- `OpenOptions::new()`: all flags false. -/
def OpenOptions.new : OpenOptions :=
  { read := false, write := false, append := false,
    truncate := false, create := false, create_new := false }

/-- `OpenOptions::read()` (renamed: `read` is already the field projection):
the read-only preset. -/
def OpenOptions.readPreset : OpenOptions :=
  { read := true, write := false, append := false,
    truncate := false, create := false, create_new := false }

/-- `OpenOptions::write()` (renamed: `write` is already the field projection):
the write-only preset. -/
def OpenOptions.writePreset : OpenOptions :=
  { read := false, write := true, append := false,
    truncate := false, create := false, create_new := false }

/-- The `DavFileSystem` trait: required methods `open` (renamed `open_`,
`open` is a Lean keyword), `read_dir` and `metadata` are mandatory fields;
every default method becomes a field whose default value is the Rust default
body (`symlink_metadata` punts to `metadata`; each other optional operation
returns `Err(FsError::NotImplemented)` via the `notimplemented!` macro;
`have_props` returns `false`).  `read_dir`'s iterator is modelled as the
finite list of entries it yields. -/
structure DavFileSystem where
  open_ : WebPath → OpenOptions → Except FsError DavFile
  read_dir : WebPath → Except FsError (List DavDirEntry)
  metadata : WebPath → Except FsError DavMetaData
  symlink_metadata : WebPath → Except FsError DavMetaData := fun path => metadata path
  create_dir : WebPath → Except FsError Unit := fun _ => .error FsError.NotImplemented
  remove_dir : WebPath → Except FsError Unit := fun _ => .error FsError.NotImplemented
  remove_file : WebPath → Except FsError Unit := fun _ => .error FsError.NotImplemented
  rename : WebPath → WebPath → Except FsError Unit := fun _ _ => .error FsError.NotImplemented
  copy : WebPath → WebPath → Except FsError Unit := fun _ _ => .error FsError.NotImplemented
  set_accessed : WebPath → SystemTime → Except FsError Unit := fun _ _ => .error FsError.NotImplemented
  set_modified : WebPath → SystemTime → Except FsError Unit := fun _ _ => .error FsError.NotImplemented
  have_props : WebPath → Bool := fun _ => false
  patch_props : WebPath → List DavProp → List DavProp → Except FsError (List (StatusCode × DavProp)) :=
    fun _ _ _ => .error FsError.NotImplemented
  get_props : WebPath → Bool → Except FsError (List DavProp) :=
    fun _ _ => .error FsError.NotImplemented
  get_prop : WebPath → DavProp → Except FsError (List Nat) :=
    fun _ _ => .error FsError.NotImplemented
  get_quota : Except FsError (Nat × Option Nat) := .error FsError.NotImplemented

/-- A backend that implements only the three required operations and
overrides nothing else: every optional field keeps its default. -/
def minimalFs (o : WebPath → OpenOptions → Except FsError DavFile)
    (rd : WebPath → Except FsError (List DavDirEntry))
    (m : WebPath → Except FsError DavMetaData) : DavFileSystem :=
  { open_ := o, read_dir := rd, metadata := m }

/-- Modelled from the spec: the repository contains only the `DavFileSystem`
trait declaration of `open`; no concrete backend implementation is under
src/.  The spec's contract for `open(path, options)` is: "must return
`Exists` if `create_new` is set and the target is present, `NotFound` if the
target is absent and neither `create` nor `create_new` is set."  `present`
abstracts which paths have a present target node; the handle returned on
success is irrelevant to the claim. -/
def modelOpen (present : WebPath → Bool) (path : WebPath) (options : OpenOptions) :
    Except FsError DavFile :=
  if present path then
    if options.create_new then .error FsError.Exists
    else .ok { metadata := .error FsError.NotImplemented }
  else
    if options.create || options.create_new then .ok { metadata := .error FsError.NotImplemented }
    else .error FsError.NotFound

/-! Helper lemmas about the hex rendering. -/

theorem hexDigitVal_hexDigitChar : ∀ m < 16, hexDigitVal (hexDigitChar m) = m := by decide

theorem hexDigitChar_ne_hyphen : ∀ m < 16, hexDigitChar m ≠ '-' := by decide

theorem hexVal_append (l : List Char) (c : Char) :
    hexVal (l ++ [c]) = 16 * hexVal l + hexDigitVal c := by
  simp [hexVal, List.foldl_append]

theorem hexVal_hexDigitsGo : ∀ fuel n, n ≤ fuel → hexVal (hexDigitsGo fuel n) = n := by
  intro fuel
  induction fuel with
  | zero =>
    intro n h
    have hn : n = 0 := Nat.le_zero.mp h
    subst hn
    rfl
  | succ fuel ih =>
    intro n h
    match n with
    | 0 => rfl
    | m + 1 =>
      rw [hexDigitsGo, hexVal_append, ih ((m + 1) / 16) (by omega),
        hexDigitVal_hexDigitChar ((m + 1) % 16) (Nat.mod_lt _ (by norm_num))]
      omega

theorem hexDigitsGo_ne_hyphen : ∀ fuel n c, c ∈ hexDigitsGo fuel n → c ≠ '-' := by
  intro fuel
  induction fuel with
  | zero => intro n c h; simp [hexDigitsGo] at h
  | succ fuel ih =>
    intro n c h
    match n with
    | 0 => simp [hexDigitsGo] at h
    | m + 1 =>
      rw [hexDigitsGo] at h
      rcases List.mem_append.mp h with h1 | h1
      · exact ih _ _ h1
      · have hc : c = hexDigitChar ((m + 1) % 16) := by simpa using h1
        rw [hc]
        exact hexDigitChar_ne_hyphen _ (Nat.mod_lt _ (by norm_num))

theorem hexVal_hexChars (n : Nat) : hexVal (hexChars n) = n := by
  by_cases h : n = 0
  · subst h; decide
  · simp only [hexChars, h, if_false, hexDigits]
    exact hexVal_hexDigitsGo n n le_rfl

theorem hexChars_injective {a b : Nat} (h : hexChars a = hexChars b) : a = b := by
  have ha := hexVal_hexChars a
  rw [h, hexVal_hexChars] at ha
  exact ha.symm

theorem hyphen_not_mem_hexChars (n : Nat) : '-' ∉ hexChars n := by
  intro hm
  by_cases h : n = 0
  · subst h; simp [hexChars] at hm
  · simp only [hexChars, h, if_false, hexDigits] at hm
    exact hexDigitsGo_ne_hyphen n n '-' hm rfl

theorem append_cons_inj {c : Char} :
    ∀ (l1 l2 r1 r2 : List Char), c ∉ l1 → c ∉ l2 →
      l1 ++ c :: r1 = l2 ++ c :: r2 → l1 = l2 ∧ r1 = r2 := by
  intro l1
  induction l1 with
  | nil =>
    intro l2 r1 r2 h1 h2 heq
    match l2 with
    | [] => simp only [List.nil_append, List.cons.injEq] at heq; exact ⟨rfl, heq.2⟩
    | x :: xs =>
      simp only [List.nil_append, List.cons_append, List.cons.injEq] at heq
      exact absurd (heq.1 ▸ List.mem_cons_self x xs) (heq.1 ▸ h2)
  | cons x xs ih =>
    intro l2 r1 r2 h1 h2 heq
    match l2 with
    | [] =>
      simp only [List.nil_append, List.cons_append, List.cons.injEq] at heq
      exact absurd (heq.1 ▸ List.mem_cons_self x xs) (heq.1 ▸ h1)
    | y :: ys =>
      simp only [List.cons_append, List.cons.injEq] at heq
      obtain ⟨hxy, htail⟩ := heq
      have hrec := ih ys r1 r2 (fun hm => h1 (List.mem_cons_of_mem _ hm))
        (fun hm => h2 (List.mem_cons_of_mem _ hm)) htail
      exact ⟨by rw [hxy, hrec.1], hrec.2⟩

theorem append_cons_ne {c : Char} (l1 r1 l2 : List Char) (h : c ∉ l2) :
    l1 ++ c :: r1 ≠ l2 := by
  intro heq
  exact h (heq ▸ List.mem_append.mpr (Or.inr (List.mem_cons_self c r1)))

theorem micro_split (n : Nat) :
    (n / 1000000000 * 1000000 + n % 1000000000 / 1000) % 18446744073709551616
      = n / 1000 % 18446744073709551616 := by omega

theorem strMk_append (a b : List Char) : String.mk a ++ String.mk b = String.mk (a ++ b) := rfl

theorem strMk_inj {a b : List Char} (h : String.mk a = String.mk b) : a = b :=
  congrArg String.data h

theorem strMk_hyphen (a b : List Char) :
    String.mk a ++ "-" ++ String.mk b = String.mk (a ++ '-' :: b) := by
  rw [show String.mk a ++ "-" ++ String.mk b = String.mk ((a ++ ['-']) ++ b) from rfl,
    List.append_assoc]
  rfl

theorem dav_etag_default_ok_shape {t : SystemTime} (l : Nat) (h : 0 ≤ t.nanos) :
    dav_etag_default l (.ok t) =
      String.mk (hexChars l ++ '-' ::
        hexChars (t.nanos.toNat / 1000 % 18446744073709551616)) := by
  have hd : t.duration_since UNIX_EPOCH =
      .ok ⟨t.nanos.toNat / 1000000000, t.nanos.toNat % 1000000000⟩ := by
    simp [SystemTime.duration_since, UNIX_EPOCH, h]
  simp only [dav_etag_default, hd, Duration.as_secs, Duration.subsec_nanos, hexStr]
  rw [micro_split, strMk_hyphen]

theorem dav_etag_default_err_shape (l : Nat) (e : FsError) :
    dav_etag_default l (.error e) = String.mk (hexChars l) := rfl

theorem dav_etag_default_neg_shape {t : SystemTime} (l : Nat) (h : t.nanos < 0) :
    dav_etag_default l (.ok t) = String.mk (hexChars l) := by
  have hd : t.duration_since UNIX_EPOCH = .error () := by
    simp only [SystemTime.duration_since, UNIX_EPOCH]
    rw [if_neg (by omega)]
  simp only [dav_etag_default, hd, hexStr]

theorem dav_etag_ne_of_len_ne {l1 l2 : Nat} (mo1 mo2 : Except FsError SystemTime)
    (h : l1 ≠ l2) : dav_etag_default l1 mo1 ≠ dav_etag_default l2 mo2 := by
  have key : ∀ (l : Nat) (mo : Except FsError SystemTime),
      dav_etag_default l mo = String.mk (hexChars l) ∨
      ∃ T, dav_etag_default l mo = String.mk (hexChars l ++ '-' :: hexChars T) := by
    intro l mo
    rcases mo with e | t
    · exact Or.inl (dav_etag_default_err_shape l e)
    · rcases lt_or_le t.nanos 0 with hneg | hpos
      · exact Or.inl (dav_etag_default_neg_shape l hneg)
      · exact Or.inr ⟨_, dav_etag_default_ok_shape l hpos⟩
  intro heq
  rcases key l1 mo1 with h1 | ⟨T1, h1⟩ <;> rcases key l2 mo2 with h2 | ⟨T2, h2⟩ <;>
      rw [h1, h2] at heq <;> replace heq := strMk_inj heq
  · exact h (hexChars_injective heq)
  · exact append_cons_ne _ _ _ (hyphen_not_mem_hexChars l1) heq.symm
  · exact append_cons_ne _ _ _ (hyphen_not_mem_hexChars l2) heq
  · exact h (hexChars_injective
      (append_cons_inj _ _ _ _ (hyphen_not_mem_hexChars l1) (hyphen_not_mem_hexChars l2) heq).1)

theorem dav_etag_ne_of_time_ne (l1 l2 : Nat) {t1 t2 : SystemTime}
    (h1 : 0 ≤ t1.nanos) (h2 : 0 ≤ t2.nanos)
    (hd : t1.nanos.toNat / 1000 % 18446744073709551616
        ≠ t2.nanos.toNat / 1000 % 18446744073709551616) :
    dav_etag_default l1 (.ok t1) ≠ dav_etag_default l2 (.ok t2) := by
  rw [dav_etag_default_ok_shape l1 h1, dav_etag_default_ok_shape l2 h2]
  intro heq
  replace heq := strMk_inj heq
  have hsplit := append_cons_inj _ _ _ _ (hyphen_not_mem_hexChars l1)
    (hyphen_not_mem_hexChars l2) heq
  exact hd (hexChars_injective hsplit.2)

/-- C1 (amended): for every metadata value that uses the default `etag()`
implementation (all other methods arbitrary), if `modified()` returns `Ok(t)`
and `t.duration_since(UNIX_EPOCH)` returns `Ok(d)`, then `etag()` is the
string `"{len in lowercase hex}-{(d.as_secs() * 1000000 + d.subsec_nanos() /
1000) mod 2^64 in lowercase hex}"` — the timestamp reduced modulo `2^64`
because the source computes it in wrapping u64 arithmetic; if `modified()`
returns an error, `etag()` is `len` in lowercase hex alone. -/
theorem claimC1_etag_default_format
    (l : Nat) (mo : Except FsError SystemTime) (d f s : Bool)
    (acc cr sc : Except FsError SystemTime) (ex : Except FsError Bool)
    (t : SystemTime) (dur : Duration) (e : FsError) :
    (mo = .ok t → t.duration_since UNIX_EPOCH = .ok dur →
      ({ len := l, modified := mo, is_dir := d, is_file := f, is_symlink := s,
         accessed := acc, created := cr, status_changed := sc, executable := ex } :
         DavMetaData).etag
        = hexStr l ++ "-" ++
          hexStr ((dur.as_secs * 1000000 + dur.subsec_nanos / 1000) % 18446744073709551616)) ∧
    (mo = .error e →
      ({ len := l, modified := mo, is_dir := d, is_file := f, is_symlink := s,
         accessed := acc, created := cr, status_changed := sc, executable := ex } :
         DavMetaData).etag = hexStr l) := by
  constructor
  · intro h1 h2
    show dav_etag_default l mo = _
    rw [h1]
    simp only [dav_etag_default, h2]
  · intro h1
    show dav_etag_default l mo = _
    rw [h1]
    rfl

/-- Witness for C1 at a concrete input: `len = 255`, `modified` succeeding
1500 nanoseconds after the epoch, whose duration is 0 s + 1500 ns, so the
microsecond value is 1. -/
theorem claimC1_witness :
    ((Except.ok ⟨1500⟩ : Except FsError SystemTime) = .ok ⟨1500⟩) ∧
    (SystemTime.duration_since ⟨1500⟩ UNIX_EPOCH = .ok ⟨0, 1500⟩) ∧
    ({ len := 255, modified := .ok ⟨1500⟩, is_dir := false } : DavMetaData).etag
      = hexStr 255 ++ "-" ++ hexStr 1 :=
  ⟨rfl, by decide,
    (claimC1_etag_default_format 255 (.ok ⟨1500⟩) false true false
      (.error FsError.NotImplemented) (.error FsError.NotImplemented)
      (.error FsError.NotImplemented) (.error FsError.NotImplemented)
      ⟨1500⟩ ⟨0, 1500⟩ FsError.NotFound).1 rfl (by decide)⟩

/-- C1 counterexample to the claim as frozen (which predicts the unbounded
microsecond value in hex): at `len = 5` and `modified` succeeding at the
epoch plus `2^58` seconds, the duration is `(2^58 s, 0 ns)` and
`2^58 * 10^6 = 2^64 * 5^6` wraps to `0` in the source's u64 arithmetic, so
the program yields `"{5:x}-{0:x}"` and not `"{5:x}-{2^58 * 10^6:x}"`. -/
theorem claimC1_counterexample :
    ({ len := 5, modified := .ok ⟨288230376151711744000000000⟩, is_dir := false } :
       DavMetaData).etag = hexStr 5 ++ "-" ++ hexStr 0 ∧
    hexStr 5 ++ "-" ++ hexStr 0
      ≠ hexStr 5 ++ "-" ++ hexStr 288230376151711744000000 := by
  constructor
  · decide
  · intro heq
    simp only [hexStr] at heq
    rw [strMk_hyphen, strMk_hyphen] at heq
    replace heq := strMk_inj heq
    have hsplit := append_cons_inj _ _ _ _ (hyphen_not_mem_hexChars 5)
      (hyphen_not_mem_hexChars 5) heq
    exact absurd (hexChars_injective hsplit.2) (by norm_num)

/-- C10: the default `etag()` is total (its result type is `String`, never an
error); in particular when `modified()` returns `Ok(t)` with `t` earlier than
the epoch (so `duration_since(UNIX_EPOCH)` fails), it returns `len` in
lowercase hex alone, the same fallback as when `modified()` itself fails. -/
theorem claimC10_etag_pre_epoch_fallback
    (l : Nat) (mo : Except FsError SystemTime) (d f s : Bool)
    (acc cr sc : Except FsError SystemTime) (ex : Except FsError Bool)
    (t : SystemTime) (e : FsError) :
    (mo = .ok t → t.nanos < 0 →
      ({ len := l, modified := mo, is_dir := d, is_file := f, is_symlink := s,
         accessed := acc, created := cr, status_changed := sc, executable := ex } :
         DavMetaData).etag = hexStr l) ∧
    (mo = .error e →
      ({ len := l, modified := mo, is_dir := d, is_file := f, is_symlink := s,
         accessed := acc, created := cr, status_changed := sc, executable := ex } :
         DavMetaData).etag = hexStr l) := by
  constructor
  · intro h1 h2
    show dav_etag_default l mo = _
    rw [h1, dav_etag_default_neg_shape l h2]
    rfl
  · intro h1
    show dav_etag_default l mo = _
    rw [h1]
    rfl

/-- Witness for C10 at a concrete input: `modified` succeeds with an instant
5 nanoseconds before the epoch; the etag is the bare hex length. -/
theorem claimC10_witness :
    ((Except.ok ⟨-5⟩ : Except FsError SystemTime) = .ok ⟨-5⟩) ∧
    ((-5 : Int) < 0) ∧
    ({ len := 3, modified := .ok ⟨-5⟩, is_dir := true } : DavMetaData).etag = hexStr 3 :=
  ⟨rfl, by decide,
    (claimC10_etag_pre_epoch_fallback 3 (.ok ⟨-5⟩) true false false
      (.error FsError.NotImplemented) (.error FsError.NotImplemented)
      (.error FsError.NotImplemented) (.error FsError.NotImplemented)
      ⟨-5⟩ FsError.NotFound).1 rfl (by decide)⟩

/-- C5: a metadata value that does not override `is_file` (all other methods
arbitrary, including an arbitrary `is_symlink` override) has
`is_file() = !is_dir()`; a metadata value that does not override `is_symlink`
(all other methods arbitrary, including an arbitrary `is_file` override) has
`is_symlink() = false`. -/
theorem claimC5_is_file_is_symlink_defaults
    (l : Nat) (mo : Except FsError SystemTime) (d : Bool) (etg : String)
    (sym f : Bool) (acc cr sc : Except FsError SystemTime) (ex : Except FsError Bool) :
    ({ len := l, modified := mo, is_dir := d, etag := etg, is_symlink := sym,
       accessed := acc, created := cr, status_changed := sc, executable := ex } :
       DavMetaData).is_file
      = !({ len := l, modified := mo, is_dir := d, etag := etg, is_symlink := sym,
            accessed := acc, created := cr, status_changed := sc, executable := ex } :
            DavMetaData).is_dir ∧
    ({ len := l, modified := mo, is_dir := d, etag := etg, is_file := f,
       accessed := acc, created := cr, status_changed := sc, executable := ex } :
       DavMetaData).is_symlink = false :=
  ⟨rfl, rfl⟩

/-- C4 (amended): the default `etag()` is a pure function of `(len,
modified)`: equal inputs give the identical string; and it separates inputs
with different `len`, or with `modified()` both succeeding at or after the
epoch whose truncated-microsecond values differ modulo `2^64` — the wrap of
the source's u64 timestamp arithmetic, which the frozen claim's bare "differ
by at least one microsecond" ignores. -/
theorem claimC4_etag_sensitivity
    (l1 l2 : Nat) (mo1 mo2 : Except FsError SystemTime) (d1 d2 f1 f2 s1 s2 : Bool)
    (acc1 acc2 cr1 cr2 sc1 sc2 : Except FsError SystemTime)
    (ex1 ex2 : Except FsError Bool) :
    ((l1 = l2 ∧ mo1 = mo2) →
      ({ len := l1, modified := mo1, is_dir := d1, is_file := f1, is_symlink := s1,
         accessed := acc1, created := cr1, status_changed := sc1, executable := ex1 } :
         DavMetaData).etag
        = ({ len := l2, modified := mo2, is_dir := d2, is_file := f2, is_symlink := s2,
             accessed := acc2, created := cr2, status_changed := sc2, executable := ex2 } :
             DavMetaData).etag) ∧
    ((l1 ≠ l2 ∨ ∃ t1 t2, mo1 = .ok t1 ∧ mo2 = .ok t2 ∧ 0 ≤ t1.nanos ∧ 0 ≤ t2.nanos ∧
        t1.nanos.toNat / 1000 % 18446744073709551616
          ≠ t2.nanos.toNat / 1000 % 18446744073709551616) →
      ({ len := l1, modified := mo1, is_dir := d1, is_file := f1, is_symlink := s1,
         accessed := acc1, created := cr1, status_changed := sc1, executable := ex1 } :
         DavMetaData).etag
        ≠ ({ len := l2, modified := mo2, is_dir := d2, is_file := f2, is_symlink := s2,
             accessed := acc2, created := cr2, status_changed := sc2, executable := ex2 } :
             DavMetaData).etag) := by
  constructor
  · rintro ⟨h1, h2⟩
    show dav_etag_default l1 mo1 = dav_etag_default l2 mo2
    rw [h1, h2]
  · intro h
    show dav_etag_default l1 mo1 ≠ dav_etag_default l2 mo2
    rcases h with hlen | ⟨t1, t2, hm1, hm2, hp1, hp2, hdiff⟩
    · exact dav_etag_ne_of_len_ne mo1 mo2 hlen
    · rw [hm1, hm2]
      exact dav_etag_ne_of_time_ne l1 l2 hp1 hp2 hdiff

/-- Witness for C4 at a concrete input: two snapshots with `len` 1 versus 2
(lengths differ) have different etags. -/
theorem claimC4_witness :
    ((1 : Nat) ≠ 2) ∧
    ({ len := 1, modified := .error FsError.GeneralFailure, is_dir := false } :
       DavMetaData).etag
      ≠ ({ len := 2, modified := .error FsError.GeneralFailure, is_dir := false } :
          DavMetaData).etag :=
  ⟨by decide,
    (claimC4_etag_sensitivity 1 2 (.error FsError.GeneralFailure)
      (.error FsError.GeneralFailure) false false true true false false
      (.error FsError.NotImplemented) (.error FsError.NotImplemented)
      (.error FsError.NotImplemented) (.error FsError.NotImplemented)
      (.error FsError.NotImplemented) (.error FsError.NotImplemented)
      (.error FsError.NotImplemented) (.error FsError.NotImplemented)).2
      (Or.inl (by decide))⟩

/-- C4 counterexample to the claim as frozen: two snapshots with equal `len`,
both with `modified` succeeding at or after the epoch and `2^58` seconds (far
more than one microsecond) apart, whose etag strings nevertheless coincide,
because `2^58 * 10^6` wraps to `0` modulo `2^64` in the source's u64
arithmetic just like the epoch's `0` does. -/
theorem claimC4_counterexample :
    (0 : Int) ≤ 0 ∧ (0 : Int) ≤ 288230376151711744000000000 ∧
    1000 ≤ ((0 : Int) - 288230376151711744000000000).natAbs ∧
    ({ len := 5, modified := .ok ⟨0⟩, is_dir := false } : DavMetaData).etag
      = ({ len := 5, modified := .ok ⟨288230376151711744000000000⟩, is_dir := false } :
          DavMetaData).etag :=
  ⟨by decide, by decide, by decide, by decide⟩

/-- C2: a backend implementing only the three required operations (`open`,
`read_dir`, `metadata`) and overriding nothing else returns
`Err(NotImplemented)` from every optional operation, for every input, and
`false` from `have_props` for every path. -/
theorem claimC2_minimal_backend_defaults
    (o : WebPath → OpenOptions → Except FsError DavFile)
    (rd : WebPath → Except FsError (List DavDirEntry))
    (m : WebPath → Except FsError DavMetaData)
    (p q : WebPath) (tm : SystemTime) (sp rp : List DavProp) (pr : DavProp) (b : Bool) :
    (minimalFs o rd m).create_dir p = .error FsError.NotImplemented ∧
    (minimalFs o rd m).remove_dir p = .error FsError.NotImplemented ∧
    (minimalFs o rd m).remove_file p = .error FsError.NotImplemented ∧
    (minimalFs o rd m).rename p q = .error FsError.NotImplemented ∧
    (minimalFs o rd m).copy p q = .error FsError.NotImplemented ∧
    (minimalFs o rd m).set_accessed p tm = .error FsError.NotImplemented ∧
    (minimalFs o rd m).set_modified p tm = .error FsError.NotImplemented ∧
    (minimalFs o rd m).patch_props p sp rp = .error FsError.NotImplemented ∧
    (minimalFs o rd m).get_props p b = .error FsError.NotImplemented ∧
    (minimalFs o rd m).get_prop p pr = .error FsError.NotImplemented ∧
    (minimalFs o rd m).get_quota = .error FsError.NotImplemented ∧
    (minimalFs o rd m).have_props p = false :=
  ⟨rfl, rfl, rfl, rfl, rfl, rfl, rfl, rfl, rfl, rfl, rfl, rfl⟩

/-- C6: a backend that does not override `symlink_metadata` (every other
operation arbitrary, required or optional) returns from `symlink_metadata(path)`
exactly the result of its own `metadata(path)`, for every path. -/
theorem claimC6_symlink_metadata_delegates
    (o : WebPath → OpenOptions → Except FsError DavFile)
    (rd : WebPath → Except FsError (List DavDirEntry))
    (m : WebPath → Except FsError DavMetaData)
    (cd rmd rmf : WebPath → Except FsError Unit)
    (rn cp : WebPath → WebPath → Except FsError Unit)
    (sa sm : WebPath → SystemTime → Except FsError Unit)
    (hp : WebPath → Bool)
    (pp : WebPath → List DavProp → List DavProp → Except FsError (List (StatusCode × DavProp)))
    (gps : WebPath → Bool → Except FsError (List DavProp))
    (gp : WebPath → DavProp → Except FsError (List Nat))
    (gq : Except FsError (Nat × Option Nat))
    (p : WebPath) :
    ({ open_ := o, read_dir := rd, metadata := m, create_dir := cd, remove_dir := rmd,
       remove_file := rmf, rename := rn, copy := cp, set_accessed := sa, set_modified := sm,
       have_props := hp, patch_props := pp, get_props := gps, get_prop := gp,
       get_quota := gq } : DavFileSystem).symlink_metadata p
      = ({ open_ := o, read_dir := rd, metadata := m, create_dir := cd, remove_dir := rmd,
           remove_file := rmf, rename := rn, copy := cp, set_accessed := sa,
           set_modified := sm, have_props := hp, patch_props := pp, get_props := gps,
           get_prop := gp, get_quota := gq } : DavFileSystem).metadata p :=
  rfl

/-- C7: a directory entry that does not override `is_dir`, `is_file` or
`is_symlink`: when `metadata()` returns `Ok(m)` the three return
`Ok(m.is_dir())`, `Ok(m.is_file())`, `Ok(m.is_symlink())` respectively, and
when `metadata()` returns `Err(e)` each of the three returns `Err(e)`. -/
theorem claimC7_direntry_defaults (nm : List Nat) (mo : Except FsError DavMetaData) :
    (∀ m, mo = .ok m →
      ({ name := nm, metadata := mo } : DavDirEntry).is_dir = .ok m.is_dir ∧
      ({ name := nm, metadata := mo } : DavDirEntry).is_file = .ok m.is_file ∧
      ({ name := nm, metadata := mo } : DavDirEntry).is_symlink = .ok m.is_symlink) ∧
    (∀ e, mo = .error e →
      ({ name := nm, metadata := mo } : DavDirEntry).is_dir = .error e ∧
      ({ name := nm, metadata := mo } : DavDirEntry).is_file = .error e ∧
      ({ name := nm, metadata := mo } : DavDirEntry).is_symlink = .error e) := by
  constructor
  · intro m h
    subst h
    exact ⟨rfl, rfl, rfl⟩
  · intro e h
    subst h
    exact ⟨rfl, rfl, rfl⟩

/-- Witness for C7 at a concrete input: a default-built entry over metadata of
a plain file (`is_dir = false`, so `is_file` defaults to `true`). -/
theorem claimC7_witness :
    ((Except.ok { len := 0, modified := .error FsError.NotImplemented, is_dir := false } :
        Except FsError DavMetaData)
      = .ok { len := 0, modified := .error FsError.NotImplemented, is_dir := false }) ∧
    ({ name := [],
       metadata := .ok { len := 0, modified := .error FsError.NotImplemented,
                         is_dir := false } } : DavDirEntry).is_dir = .ok false ∧
    ({ name := [],
       metadata := .ok { len := 0, modified := .error FsError.NotImplemented,
                         is_dir := false } } : DavDirEntry).is_file = .ok true ∧
    ({ name := [],
       metadata := .ok { len := 0, modified := .error FsError.NotImplemented,
                         is_dir := false } } : DavDirEntry).is_symlink = .ok false :=
  ⟨rfl, (claimC7_direntry_defaults []
    (.ok { len := 0, modified := .error FsError.NotImplemented, is_dir := false })).1
    { len := 0, modified := .error FsError.NotImplemented, is_dir := false } rfl⟩

/-- C8: `OpenOptions::read()` has `read = true` and all other flags `false`;
`OpenOptions::write()` has `write = true` and all other flags `false`. -/
theorem claimC8_openoptions_presets :
    OpenOptions.readPreset.read = true ∧ OpenOptions.readPreset.write = false ∧
    OpenOptions.readPreset.append = false ∧ OpenOptions.readPreset.truncate = false ∧
    OpenOptions.readPreset.create = false ∧ OpenOptions.readPreset.create_new = false ∧
    OpenOptions.writePreset.write = true ∧ OpenOptions.writePreset.read = false ∧
    OpenOptions.writePreset.append = false ∧ OpenOptions.writePreset.truncate = false ∧
    OpenOptions.writePreset.create = false ∧ OpenOptions.writePreset.create_new = false := by
  decide

/-- C3: for the spec-modelled `open` contract over any present-set of paths:
`open(path, options)` returns `Err(Exists)` whenever `create_new` is set and
the target is present, and `Err(NotFound)` whenever the target is absent and
neither `create` nor `create_new` is set. -/
theorem claimC3_open_contract (present : WebPath → Bool) (path : WebPath)
    (options : OpenOptions) :
    (options.create_new = true → present path = true →
      modelOpen present path options = .error FsError.Exists) ∧
    (present path = false → options.create = false → options.create_new = false →
      modelOpen present path options = .error FsError.NotFound) := by
  constructor
  · intro h1 h2
    simp [modelOpen, h1, h2]
  · intro h1 h2 h3
    simp [modelOpen, h1, h2, h3]

/-- Witness for C3 at the spec's two scenarios: `open("/a.txt",
{create_new:true})` with `/a.txt` present gives `Exists`; `open("/missing.txt",
{read:true})` on an empty backend gives `NotFound`. -/
theorem claimC3_witness :
    (({ OpenOptions.new with create_new := true } : OpenOptions).create_new = true) ∧
    ((fun _ => true : WebPath → Bool) ⟨"/a.txt"⟩ = true) ∧
    modelOpen (fun _ => true) ⟨"/a.txt"⟩ { OpenOptions.new with create_new := true }
      = .error FsError.Exists ∧
    ((fun _ => false : WebPath → Bool) ⟨"/missing.txt"⟩ = false) ∧
    (OpenOptions.readPreset.create = false) ∧
    (OpenOptions.readPreset.create_new = false) ∧
    modelOpen (fun _ => false) ⟨"/missing.txt"⟩ OpenOptions.readPreset
      = .error FsError.NotFound :=
  ⟨rfl, rfl,
    (claimC3_open_contract (fun _ => true) ⟨"/a.txt"⟩
      { OpenOptions.new with create_new := true }).1 rfl rfl,
    rfl, rfl, rfl,
    (claimC3_open_contract (fun _ => false) ⟨"/missing.txt"⟩ OpenOptions.readPreset).2
      rfl rfl rfl⟩
